import Mathlib

/-!
Verification of the Math_in_Motion trajectory pipeline.

This file gives a shallow embedding of the trajectory-generation core of the
repository (`src/pattern_generator.py` and `src/math_motion.py`) and proves or
refutes the specified properties about it.

Modelling conventions:
- Python floats are modelled as real numbers (`ℝ`); `math.sin`, `math.cos`,
  `math.sqrt`, `math.pi` become `Real.sin`, `Real.cos`, `Real.sqrt`, `Real.pi`.
- A waypoint `[j1, j2, j3, j4, j5, j6]` is a 6-field structure of reals.
- The `PatternGenerator` class is a structure carrying its two instance fields
  (`num_points` and the unused `trajectory` list); each method is a function
  taking the structure.
- Loops of the form `for i in range(n): trajectory.append(f(i))` become
  `(List.range n).map f`; the chaotic integrators thread their state through
  the loop, which is embedded as a primitive recursion over the sample index.
- Python's `round(a, 4)` is modelled as rounding `a * 10000` to the nearest
  integer and dividing back.  (Python breaks ties to even while Mathlib's
  `round` breaks ties upward; no statement below depends on tie behaviour.)
-/

noncomputable section

/-- One waypoint: the six joint angles `[j1, j2, j3, j4, j5, j6]`. -/
structure Waypoint where
  j1 : ℝ
  j2 : ℝ
  j3 : ℝ
  j4 : ℝ
  j5 : ℝ
  j6 : ℝ

/-- The list form `[j1, j2, j3, j4, j5, j6]` used by the serializers. -/
def Waypoint.toList (w : Waypoint) : List ℝ :=
  [w.j1, w.j2, w.j3, w.j4, w.j5, w.j6]

/-- `max(lo, min(hi, x))`: the saturating clamp used by the generators. -/
def clamp (lo hi x : ℝ) : ℝ := max lo (min hi x)

/-- The per-joint safety clamps applied by the attractor and equation
generators: `[-3.14, 3.14]` for j1, j2, j4, j5, j6 and `[0.5, 2.5]` for the
elbow joint j3. -/
def clampWaypoint (w : Waypoint) : Waypoint :=
  { j1 := clamp (-3.14) 3.14 w.j1
    j2 := clamp (-3.14) 3.14 w.j2
    j3 := clamp 0.5 2.5 w.j3
    j4 := clamp (-3.14) 3.14 w.j4
    j5 := clamp (-3.14) 3.14 w.j5
    j6 := clamp (-3.14) 3.14 w.j6 }

/-- Every joint value lies inside its admissible closed interval; the elbow
joint j3 has the asymmetric interval `[0.5, 2.5]`. -/
def Waypoint.inBounds (w : Waypoint) : Prop :=
  (-3.14 ≤ w.j1 ∧ w.j1 ≤ 3.14) ∧ (-3.14 ≤ w.j2 ∧ w.j2 ≤ 3.14) ∧
  (0.5 ≤ w.j3 ∧ w.j3 ≤ 2.5) ∧ (-3.14 ≤ w.j4 ∧ w.j4 ≤ 3.14) ∧
  (-3.14 ≤ w.j5 ∧ w.j5 ≤ 3.14) ∧ (-3.14 ≤ w.j6 ∧ w.j6 ≤ 3.14)

/-- The `PatternGenerator` class: its constructor stores `num_points` and an
(unused) empty `trajectory` list. -/
structure PatternGenerator where
  num_points : ℕ
  trajectory : List Waypoint

/-- Waypoint `i` of `PatternGenerator.infinity_3d` (lemniscate pattern). -/
def infinity3dSample (n : ℕ) (scale speed : ℝ) (i : ℕ) : Waypoint :=
  let t : ℝ := ((i : ℝ) / (n : ℝ)) * 2 * Real.pi * speed
  let a := scale
  let denom := 1 + Real.sin t ^ 2
  let x := if denom ≠ 0 then a * Real.cos t / denom else 0
  let y := if denom ≠ 0 then a * Real.cos t * Real.sin t / denom else 0
  let z := a * Real.sin (t * 2) * 0.4
  { j1 := 0.0 + x * 0.8
    j2 := -1.57 + y * 0.5
    j3 := 1.57 + z * 0.5 + (x + y) * 0.2
    j4 := 0.0 + Real.sin (t * 2) * 0.15
    j5 := 1.57 + Real.cos (t * 2) * 0.15
    j6 := 0.0 + t * 0.08 }

/-- `PatternGenerator.infinity_3d`: the 3D lemniscate pattern. -/
def PatternGenerator.infinity_3d (g : PatternGenerator) (scale speed : ℝ) :
    List Waypoint :=
  (List.range g.num_points).map (infinity3dSample g.num_points scale speed)

/-- Waypoint `i` of `PatternGenerator.circle_pattern`. -/
def circleSample (n : ℕ) (radius : ℝ) (plane : String) (speed : ℝ) (i : ℕ) :
    Waypoint :=
  let t : ℝ := ((i : ℝ) / (n : ℝ)) * 2 * Real.pi * speed
  let x := if plane = ("horizontal") then radius * Real.cos t
           else if plane = ("vertical_xz") then radius * Real.cos t else 0
  let y := if plane = ("horizontal") then radius * Real.sin t
           else if plane = ("vertical_xz") then 0 else radius * Real.cos t
  let z := if plane = ("horizontal") then radius * 0.3 * Real.sin (t * 2)
           else if plane = ("vertical_xz") then radius * Real.sin t
           else radius * Real.sin t
  { j1 := 0.0 + x * 0.8
    j2 := -1.57 + y * 0.5 + z * 0.5
    j3 := 1.57 + (x + z) * 0.4
    j4 := 0.0 + Real.sin (t * 2) * 0.15
    j5 := 1.57 + Real.cos (t * 2) * 0.15
    j6 := 0.0 + t * 0.08 }

/-- `PatternGenerator.circle_pattern`: circle in the requested plane. -/
def PatternGenerator.circle_pattern (g : PatternGenerator) (radius : ℝ)
    (plane : String) (speed : ℝ) : List Waypoint :=
  (List.range g.num_points).map (circleSample g.num_points radius plane speed)

/-- Waypoint `i` of `PatternGenerator.wave_pattern`. -/
def waveSample (n : ℕ) (amplitude wavelength speed : ℝ) (i : ℕ) : Waypoint :=
  let t : ℝ := ((i : ℝ) / (n : ℝ)) * wavelength * 2 * Real.pi * speed
  let x := ((i : ℝ) / (n : ℝ)) * 0.8 - 0.4
  let y := amplitude * Real.sin t
  let z := amplitude * Real.cos (t * 0.5) * 0.7
  { j1 := 0.0 + x * 0.5
    j2 := -1.57 + y * 0.5
    j3 := 1.57 + y * 0.4 + z * 0.4
    j4 := 0.0 + Real.sin t * 0.15
    j5 := 1.57 + Real.cos t * 0.15
    j6 := 0.0 + t * 0.04 }

/-- `PatternGenerator.wave_pattern`: sinusoidal wave pattern. -/
def PatternGenerator.wave_pattern (g : PatternGenerator)
    (amplitude wavelength speed : ℝ) : List Waypoint :=
  (List.range g.num_points).map
    (waveSample g.num_points amplitude wavelength speed)

/-- Waypoint `i` of `PatternGenerator.spiral_pattern`. -/
def spiralSample (n : ℕ) (radius height speed : ℝ) (i : ℕ) : Waypoint :=
  let t : ℝ := ((i : ℝ) / (n : ℝ)) * 4 * Real.pi * speed
  let x := radius * Real.cos t
  let y := radius * Real.sin t
  let z := ((i : ℝ) / (n : ℝ)) * height
  { j1 := 0.0 + x * 0.8
    j2 := -1.57 + y * 0.5
    j3 := 1.57 + z * 0.8 + (x * y * 0.3)
    j4 := 0.0 + Real.sin t * 0.15
    j5 := 1.57 + Real.cos t * 0.15
    j6 := 0.0 + t * 0.08 }

/-- `PatternGenerator.spiral_pattern`: 3D helix pattern. -/
def PatternGenerator.spiral_pattern (g : PatternGenerator)
    (radius height speed : ℝ) : List Waypoint :=
  (List.range g.num_points).map (spiralSample g.num_points radius height speed)

/-- Waypoint `i` of `PatternGenerator.heart_pattern`. -/
def heartSample (n : ℕ) (scale speed : ℝ) (i : ℕ) : Waypoint :=
  let t : ℝ := ((i : ℝ) / (n : ℝ)) * 2 * Real.pi * speed
  let x := scale * 16 * Real.sin t ^ 3
  let y := scale * (13 * Real.cos t - 5 * Real.cos (2 * t) -
    2 * Real.cos (3 * t) - Real.cos (4 * t))
  let z := scale * 0.2 * Real.sin (t * 3)
  { j1 := 0.0 + x * 0.6
    j2 := -1.57 + y * 0.4
    j3 := 1.57 + y * 0.3 + z * 0.2
    j4 := 0.0 + Real.sin (t * 2) * 0.12
    j5 := 1.57 + Real.cos (t * 2) * 0.12
    j6 := 0.0 + t * 0.06 }

/-- `PatternGenerator.heart_pattern`: parametric heart curve pattern. -/
def PatternGenerator.heart_pattern (g : PatternGenerator) (scale speed : ℝ) :
    List Waypoint :=
  (List.range g.num_points).map (heartSample g.num_points scale speed)

/-- Squared Euclidean magnitude of a 3D state vector `(x, y, z)`. -/
def sqMag (v : ℝ × ℝ × ℝ) : ℝ := v.1 ^ 2 + v.2.1 ^ 2 + v.2.2 ^ 2

/-- `magnitude = math.sqrt(x**2 + y**2 + z**2)` from the attractor loops. -/
def stateMag (v : ℝ × ℝ × ℝ) : ℝ := Real.sqrt (sqMag v)

/-- The renormalization step shared by `lorenz_attractor` (with `r = scale*10`)
and `rossler_attractor` (with `r = scale*8`): if the magnitude is positive,
rescale the state onto the sphere of radius `r`, otherwise leave it alone. -/
def renorm (r : ℝ) (v : ℝ × ℝ × ℝ) : ℝ × ℝ × ℝ :=
  if 0 < stateMag v then
    (v.1 / stateMag v * r, v.2.1 / stateMag v * r, v.2.2 / stateMag v * r)
  else v

/-- One forward-Euler step of the Lorenz system with `sigma = 10`,
`rho = 28 * complexity`, `beta = 8/3`, `dt = 0.01`. -/
def lorenzEuler (complexity : ℝ) (v : ℝ × ℝ × ℝ) : ℝ × ℝ × ℝ :=
  let x := v.1
  let y := v.2.1
  let z := v.2.2
  (x + (10.0 * (y - x)) * 0.01,
   y + (x * (28.0 * complexity - z) - y) * 0.01,
   z + (x * y - (8.0 / 3.0) * z) * 0.01)

/-- The Lorenz integrator state right after the Euler update of sample `i`
(before the renormalization of sample `i`); the initial state is `(1, 1, 1)`. -/
def lorenzPre (scale complexity : ℝ) : ℕ → ℝ × ℝ × ℝ
  | 0 => lorenzEuler complexity (1.0, 1.0, 1.0)
  | i + 1 => lorenzEuler complexity (renorm (scale * 10) (lorenzPre scale complexity i))

/-- The Lorenz integrator state right after the renormalization of sample `i`. -/
def lorenzState (scale complexity : ℝ) (i : ℕ) : ℝ × ℝ × ℝ :=
  renorm (scale * 10) (lorenzPre scale complexity i)

/-- Waypoint `i` of `PatternGenerator.lorenz_attractor` (joint mapping followed
by the per-joint safety clamps). -/
def lorenzWaypoint (scale complexity : ℝ) (i : ℕ) : Waypoint :=
  let s := lorenzState scale complexity i
  clampWaypoint
    { j1 := 0.0 + s.1 * 0.5
      j2 := -1.57 + s.2.1 * 0.4
      j3 := 1.57 + s.2.2 * 0.3
      j4 := 0.0 + s.1 * 0.2
      j5 := 1.57 + s.2.1 * 0.2
      j6 := 0.0 + s.2.2 * 0.2 }

/-- `PatternGenerator.lorenz_attractor`: Euler-integrated Lorenz system with
per-sample renormalization and safety clamps. -/
def PatternGenerator.lorenz_attractor (g : PatternGenerator)
    (scale complexity : ℝ) : List Waypoint :=
  (List.range g.num_points).map (lorenzWaypoint scale complexity)

/-- One forward-Euler step of the Rössler system with `a = 0.1`, `b = 0.1`,
`c = 14 * complexity`, `dt = 0.01`. -/
def rosslerEuler (complexity : ℝ) (v : ℝ × ℝ × ℝ) : ℝ × ℝ × ℝ :=
  let x := v.1
  let y := v.2.1
  let z := v.2.2
  (x + (-y - z) * 0.01,
   y + (x + 0.1 * y) * 0.01,
   z + (0.1 + z * (x - 14.0 * complexity)) * 0.01)

/-- The Rössler integrator state after the Euler update of sample `i` (before
its renormalization); the initial state is `(1, 0, 0)`. -/
def rosslerPre (scale complexity : ℝ) : ℕ → ℝ × ℝ × ℝ
  | 0 => rosslerEuler complexity (1.0, 0.0, 0.0)
  | i + 1 => rosslerEuler complexity (renorm (scale * 8) (rosslerPre scale complexity i))

/-- The Rössler integrator state right after the renormalization of sample `i`. -/
def rosslerState (scale complexity : ℝ) (i : ℕ) : ℝ × ℝ × ℝ :=
  renorm (scale * 8) (rosslerPre scale complexity i)

/-- Waypoint `i` of `PatternGenerator.rossler_attractor`. -/
def rosslerWaypoint (scale complexity : ℝ) (i : ℕ) : Waypoint :=
  let s := rosslerState scale complexity i
  clampWaypoint
    { j1 := 0.0 + s.1 * 0.6
      j2 := -1.57 + s.2.1 * 0.5
      j3 := 1.57 + s.2.2 * 0.35
      j4 := 0.0 + Real.sin ((i : ℝ) / 10) * 0.3
      j5 := 1.57 + Real.cos ((i : ℝ) / 10) * 0.3
      j6 := 0.0 + s.2.2 * 0.2 }

/-- `PatternGenerator.rossler_attractor`: Euler-integrated Rössler system with
per-sample renormalization and safety clamps. -/
def PatternGenerator.rossler_attractor (g : PatternGenerator)
    (scale complexity : ℝ) : List Waypoint :=
  (List.range g.num_points).map (rosslerWaypoint scale complexity)

/-- One step of the Hénon map extended to 3D, with `a = 1.4 * complexity`,
`b = 0.3`, `z = (x_new + y_new)/2`. -/
def henonStep (complexity : ℝ) (v : ℝ × ℝ × ℝ) : ℝ × ℝ × ℝ :=
  let xNew := 1.0 - (1.4 * complexity) * v.1 ^ 2 + v.2.1
  let yNew := 0.3 * v.1
  let zNew := (xNew + yNew) * 0.5
  (xNew, yNew, zNew)

/-- The "normalize" step of `henon_attractor`: each component is clamped to
`[-1, 1]` and multiplied by `scale` (this does NOT fix the vector magnitude). -/
def henonNorm (scale : ℝ) (v : ℝ × ℝ × ℝ) : ℝ × ℝ × ℝ :=
  (clamp (-1) 1 v.1 * scale, clamp (-1) 1 v.2.1 * scale,
   clamp (-1) 1 v.2.2 * scale)

/-- The Hénon state after the map step of sample `i` (before its normalize
step); the next map step consumes the normalized state, as in the source,
where `x, y, z` are overwritten by the scaled values. Initial state `(0,0,0)`. -/
def henonPre (scale complexity : ℝ) : ℕ → ℝ × ℝ × ℝ
  | 0 => henonStep complexity (0.0, 0.0, 0.0)
  | i + 1 => henonStep complexity (henonNorm scale (henonPre scale complexity i))

/-- The Hénon state right after the normalize step of sample `i`. -/
def henonState (scale complexity : ℝ) (i : ℕ) : ℝ × ℝ × ℝ :=
  henonNorm scale (henonPre scale complexity i)

/-- Waypoint `i` of `PatternGenerator.henon_attractor`. -/
def henonWaypoint (scale complexity : ℝ) (i : ℕ) : Waypoint :=
  let s := henonState scale complexity i
  clampWaypoint
    { j1 := 0.0 + s.1 * 0.7
      j2 := -1.57 + s.2.1 * 0.5
      j3 := 1.57 + s.2.2 * 0.4
      j4 := 0.0 + (s.1 * s.2.1) * 0.3
      j5 := 1.57 + (s.2.1 * s.2.2) * 0.3
      j6 := 0.0 + (s.2.2 * s.1) * 0.3 }

/-- `PatternGenerator.henon_attractor`: iterated Hénon map with per-sample
component clamping and safety clamps. -/
def PatternGenerator.henon_attractor (g : PatternGenerator)
    (scale complexity : ℝ) : List Waypoint :=
  (List.range g.num_points).map (henonWaypoint scale complexity)

/-- Python's `round(a, 4)`: round to four decimal places. -/
def round4 (x : ℝ) : ℝ := ((round (x * 10000) : ℤ) : ℝ) / 10000

/-- One `movej(...)` line of a motion program: the six rounded joint values
plus the acceleration, velocity and (optional) blend-radius arguments.
`PatternGenerator.export_to_urscript` emits no `r` argument (`none`);
`generate_pattern_script` always emits `r = 0.05`. -/
structure Move where
  joints : List ℝ
  a : ℝ
  v : ℝ
  r : Option ℝ

/-- A serialized motion program: the pattern name used in the
`execute_<name>_pattern()` block and invocation, and its move lines. -/
structure MotionScript where
  pattern : String
  moves : List Move

/-- `PatternGenerator.export_to_urscript`: one `movej` line per waypoint, in
trajectory order, joints rounded to 4 decimals, no blend radius argument. -/
def export_to_urscript (trajectory : List Waypoint)
    (acceleration velocity : ℝ) : List Move :=
  trajectory.map (fun w =>
    { joints := w.toList.map round4
      a := acceleration
      v := velocity
      r := none })

/-- The `patterns` dictionary built eagerly inside `generate_pattern_script`,
with the hard-coded per-pattern parameters of the source. -/
def patternTable (g : PatternGenerator) (complexity : ℝ) :
    List (String × List Waypoint) :=
  [("infinity", g.infinity_3d 0.3 1.0),
   ("circle", g.circle_pattern 0.3 ("horizontal") 1.0),
   ("spiral", g.spiral_pattern 0.3 0.4 1.0),
   ("wave", g.wave_pattern 0.3 4 1.0),
   ("heart", g.heart_pattern 0.25 1.0),
   ("lorenz", g.lorenz_attractor 0.3 complexity),
   ("rossler", g.rossler_attractor 0.3 complexity),
   ("henon", g.henon_attractor 0.3 complexity)]

/-- Python's `str.lower()`, as used on the pattern name: lower-case every
character.  (Defined structurally over the character list so that it reduces;
`String.toLower` in core is not usable in proofs.) -/
def strLower (s : String) : String := String.mk (s.data.map Char.toLower)

/-- `generate_pattern_script` from `math_motion.py`: build a fresh generator,
look the (lower-cased) pattern name up in the pattern dictionary, and — when
found — serialize the trajectory with one `movej` line per waypoint, each
carrying `a = acceleration`, `v = velocity`, `r = 0.05`.  Returns `none`
(Python `None`) when the name is unknown.  Note that the source performs no
validation of `num_points`, `acceleration` or `velocity`. -/
def generate_pattern_script (pattern_name : String) (num_points : ℕ)
    (acceleration velocity complexity : ℝ) : Option MotionScript :=
  let g : PatternGenerator := { num_points := num_points, trajectory := [] }
  match (patternTable g complexity).lookup (strLower pattern_name) with
  | none => none
  | some traj =>
      some { pattern := strLower pattern_name
             moves := traj.map (fun w =>
               { joints := w.toList.map round4
                 a := acceleration
                 v := velocity
                 r := some 0.05 }) }

/-! ## Helper lemmas -/

/-- The squared magnitude of a state vector is nonnegative. -/
lemma sqMag_nonneg (v : ℝ × ℝ × ℝ) : 0 ≤ sqMag v := by
  unfold sqMag
  positivity

/-- A saturating clamp lands in its closed interval. -/
lemma clamp_mem (lo hi x : ℝ) (h : lo ≤ hi) :
    lo ≤ clamp lo hi x ∧ clamp lo hi x ≤ hi :=
  ⟨le_max_left _ _, max_le h (min_le_left _ _)⟩

/-- The safety-clamped waypoint always satisfies the joint bounds. -/
lemma clampWaypoint_inBounds (w : Waypoint) : (clampWaypoint w).inBounds := by
  refine ⟨clamp_mem _ _ _ (by norm_num), clamp_mem _ _ _ (by norm_num),
    clamp_mem _ _ _ (by norm_num), clamp_mem _ _ _ (by norm_num),
    clamp_mem _ _ _ (by norm_num), clamp_mem _ _ _ (by norm_num)⟩

/-- Renormalizing a state of positive magnitude puts it exactly on the sphere
of radius `r` (for `r ≥ 0`). -/
lemma mag_renorm (r : ℝ) (v : ℝ × ℝ × ℝ) (hv : 0 < sqMag v) (hr : 0 ≤ r) :
    stateMag (renorm r v) = r := by
  have hm : 0 < stateMag v := Real.sqrt_pos.mpr hv
  have hm2 : stateMag v ^ 2 = sqMag v := Real.sq_sqrt (le_of_lt hv)
  have hm0 : stateMag v ≠ 0 := ne_of_gt hm
  rw [renorm, if_pos hm]
  show Real.sqrt (sqMag _) = r
  have key : sqMag (v.1 / stateMag v * r, v.2.1 / stateMag v * r,
      v.2.2 / stateMag v * r) = r ^ 2 := by
    simp only [sqMag] at hm2 ⊢
    field_simp
    nlinarith [hm2]
  rw [key, Real.sqrt_sq hr]

/-- A lookup whose key differs from every key in the table returns `none`. -/
lemma lookup_eq_none_of_key_notin {β : Type} (k : String) :
    ∀ l : List (String × β), (∀ p ∈ l, ¬(k = p.1)) → l.lookup k = none
  | [], _ => rfl
  | a :: t, h => by
      obtain ⟨ka, ba⟩ := a
      have ha : ¬(k = ka) := h (ka, ba) (List.mem_cons_self _ t)
      have hb : (k == ka) = false := beq_eq_false_iff_ne.mpr ha
      simpa [List.lookup, hb] using
        lookup_eq_none_of_key_notin k t (fun p hp => h p (List.mem_cons_of_mem _ hp))

/-! ## Claims -/

/-- Claim C1 is false as stated: the closed-form generators (`circle_pattern`
among them, cited by the claim) apply no safety clamps at all.  A circle of
radius 100 puts the very first waypoint's j1 at 80, far outside
`[-3.14, 3.14]`. -/
theorem circle_pattern_exceeds_bounds_cex :
    ∃ w, ((PatternGenerator.mk 1 []).circle_pattern 100 ("horizontal") 1)[0]? =
        some w ∧ (3.14 : ℝ) < w.j1 := by
  refine ⟨circleSample 1 100 ("horizontal") 1 0, ?_, ?_⟩
  · simp [PatternGenerator.circle_pattern]
  · have h : (circleSample 1 100 ("horizontal") 1 0).j1 = 80 := by
      simp [circleSample]
      norm_num [Real.cos_zero, Real.sin_zero]
    rw [h]
    norm_num

/-- Claim C1 (amended): only the chaotic attractor generators apply the
per-joint safety clamps; for them, every waypoint of every trajectory — for
every parameter choice, however extreme — has each joint inside its admissible
interval (`[-3.14, 3.14]` for j1, j2, j4, j5, j6 and `[0.5, 2.5]` for j3).
The five closed-form generators reachable from `generate_pattern_script`
perform no clamping and can leave the intervals. -/
theorem attractor_waypoints_in_bounds (g : PatternGenerator)
    (scale complexity : ℝ) :
    (∀ w ∈ g.lorenz_attractor scale complexity, w.inBounds) ∧
    (∀ w ∈ g.rossler_attractor scale complexity, w.inBounds) ∧
    (∀ w ∈ g.henon_attractor scale complexity, w.inBounds) := by
  refine ⟨?_, ?_, ?_⟩ <;>
    · intro w hw
      simp only [PatternGenerator.lorenz_attractor,
        PatternGenerator.rossler_attractor, PatternGenerator.henon_attractor,
        List.mem_map] at hw
      obtain ⟨i, _, rfl⟩ := hw
      exact clampWaypoint_inBounds _

/-- Witness for the amended claim C1 at a concrete input. -/
theorem attractor_waypoints_in_bounds_witness :
    lorenzWaypoint 0.3 1 0 ∈ (PatternGenerator.mk 1 []).lorenz_attractor 0.3 1 ∧
      (lorenzWaypoint 0.3 1 0).inBounds :=
  ⟨by simp [PatternGenerator.lorenz_attractor],
   (attractor_waypoints_in_bounds (PatternGenerator.mk 1 []) 0.3 1).1 _
     (by simp [PatternGenerator.lorenz_attractor])⟩

/-- Claim C2 is false as stated: `generate_pattern_script` gives EVERY move
instruction — the final one included — the same blend radius `0.05`.  With a
sample count of 1 the single (hence final) move carries `r = 0.05 ≠ 0`, not
the claimed closing zero blend radius. -/
theorem final_move_blend_radius_cex :
    ∃ s, generate_pattern_script ("circle") 1 1.2 0.6 1.0 = some s ∧
      s.moves.length = 1 ∧ (∀ m ∈ s.moves, m.r = some 0.05) ∧
      ((0.05 : ℝ) ≠ 0) := by
  have h : strLower ("circle") = ("circle") := rfl
  refine ⟨MotionScript.mk ("circle")
    [Move.mk ((circleSample 1 0.3 ("horizontal") 1.0 0).toList.map round4)
      1.2 0.6 (some 0.05)], ?_, rfl, ?_, by norm_num⟩
  · simp [generate_pattern_script, patternTable, List.lookup, h,
      PatternGenerator.circle_pattern, List.range_succ]
  · intro m hm
    simp only [List.mem_singleton] at hm
    subst hm
    rfl

/-- Claim C2 (amended): every move instruction of every program produced by
`generate_pattern_script` — the one for the final waypoint included — carries
the same non-zero blend radius `0.05`; no move forces a full stop. -/
theorem moves_blend_radius_const (pattern_name : String) (num_points : ℕ)
    (acceleration velocity complexity : ℝ) (s : MotionScript)
    (h : generate_pattern_script pattern_name num_points acceleration velocity
      complexity = some s) :
    ∀ m ∈ s.moves, m.r = some 0.05 := by
  rw [generate_pattern_script] at h
  rcases hlook : (patternTable (PatternGenerator.mk num_points [])
      complexity).lookup (strLower pattern_name) with _ | traj
  · rw [hlook] at h
    exact absurd h (by simp)
  · rw [hlook] at h
    have hs := Option.some.inj h
    subst hs
    intro m hm
    simp only [List.mem_map] at hm
    obtain ⟨w, _, rfl⟩ := hm
    rfl

/-- Witness for the amended claim C2 at a concrete input. -/
theorem moves_blend_radius_const_witness :
    ∃ s, generate_pattern_script ("wave") 2 1.0 0.5 1.0 = some s ∧
      ∀ m ∈ s.moves, m.r = some 0.05 := by
  have h : strLower ("wave") = ("wave") := rfl
  have hsome : ∃ s, generate_pattern_script ("wave") 2 1.0 0.5 1.0 = some s := by
    simp [generate_pattern_script, patternTable, List.lookup, h]
  obtain ⟨s, hs⟩ := hsome
  exact ⟨s, hs, moves_blend_radius_const ("wave") 2 1.0 0.5 1.0 s hs⟩

/-- Claim C3 is false as stated: `generate_pattern_script` (and the
`PatternGenerator` constructor) validate nothing.  A sample count of 0
together with a negative velocity still yields a program (with zero moves)
instead of an `InvalidParameter` failure. -/
theorem no_parameter_validation_cex :
    generate_pattern_script ("circle") 0 1.2 (-0.6) 1.0 =
      some (MotionScript.mk ("circle") []) := by
  have h : strLower ("circle") = ("circle") := rfl
  simp [generate_pattern_script, patternTable, List.lookup, h,
    PatternGenerator.circle_pattern]

/-- Claim C3 (amended): program generation performs no parameter validation —
every sample count (zero included) and every velocity/acceleration value
(non-positive included) is accepted for a supported pattern name, yielding a
program whose move count equals the sample count and whose moves embed the
given acceleration and velocity unchanged. -/
theorem generation_accepts_all_parameters (num_points : ℕ)
    (acceleration velocity complexity : ℝ) :
    ∃ s, generate_pattern_script ("circle") num_points acceleration velocity
        complexity = some s ∧ s.moves.length = num_points ∧
      ∀ m ∈ s.moves, m.a = acceleration ∧ m.v = velocity := by
  have h : strLower ("circle") = ("circle") := rfl
  refine ⟨MotionScript.mk ("circle")
    (((PatternGenerator.mk num_points []).circle_pattern 0.3 ("horizontal")
      1.0).map (fun w => Move.mk (w.toList.map round4) acceleration velocity
        (some 0.05))), ?_, ?_, ?_⟩
  · simp [generate_pattern_script, patternTable, List.lookup, h]
  · simp [PatternGenerator.circle_pattern]
  · intro m hm
    simp only [List.mem_map] at hm
    obtain ⟨w, _, rfl⟩ := hm
    exact ⟨rfl, rfl⟩

/-- Witness for the amended claim C3 at a concrete (invalid-by-spec) input. -/
theorem generation_accepts_all_parameters_witness :
    ∃ s, generate_pattern_script ("circle") 3 0.7 (-0.2) 1.0 = some s ∧
      s.moves.length = 3 ∧ ∀ m ∈ s.moves, m.a = 0.7 ∧ m.v = -0.2 :=
  generation_accepts_all_parameters 3 0.7 (-0.2) 1.0

/-- Claim C4 is false as stated: `henon_attractor` has no magnitude
renormalization — its "normalize" step clamps each component to `[-1, 1]` and
multiplies by `scale` — so the post-normalization magnitude is not a constant
target radius: at the default parameters it already differs between samples 0
and 1. -/
theorem henon_norm_magnitude_cex :
    stateMag (henonState 0.3 1.2 0) ≠ stateMag (henonState 0.3 1.2 1) := by
  intro h
  have h2 : sqMag (henonState 0.3 1.2 0) = sqMag (henonState 0.3 1.2 1) := by
    have e := congrArg (fun x => x ^ 2) h
    simpa [stateMag, Real.sq_sqrt (sqMag_nonneg _)] using e
  revert h2
  norm_num [henonState, henonPre, henonStep, henonNorm, clamp, sqMag,
    min_def, max_def]

/-- Claim C4 (amended): for the two Euler-integrated attractors the
renormalization invariant does hold — whenever the state entering the
renormalization step of a sample is nonzero and `scale` is positive, the
state's magnitude immediately afterwards equals the target radius exactly
(`scale * 10` for Lorenz, `scale * 8` for Rössler).  `henon_attractor` has no
such invariant. -/
theorem renorm_magnitude_eq_target (scale complexity : ℝ) (hs : 0 < scale)
    (i : ℕ) :
    (0 < sqMag (lorenzPre scale complexity i) →
      stateMag (lorenzState scale complexity i) = scale * 10) ∧
    (0 < sqMag (rosslerPre scale complexity i) →
      stateMag (rosslerState scale complexity i) = scale * 8) :=
  ⟨fun h => mag_renorm _ _ h (by positivity),
   fun h => mag_renorm _ _ h (by positivity)⟩

/-- Witness for the amended claim C4 at a concrete input. -/
theorem renorm_magnitude_eq_target_witness :
    stateMag (lorenzState 1 1 0) = 1 * 10 :=
  (renorm_magnitude_eq_target 1 1 (by norm_num) 0).1
    (by norm_num [lorenzPre, lorenzEuler, sqMag])

/-- Claim C5: the horizontal circle with radius 0.3 and 40 samples starts
(`t = 0`) at j1 = home j1 + 0.3·0.8 = 0.24 and j2 = home j2 = -1.57, within
1e-6 (here the equalities are exact). -/
theorem circle_waypoint0_scenario :
    ∃ w, ((PatternGenerator.mk 40 []).circle_pattern 0.3 ("horizontal")
        1.0)[0]? = some w ∧
      |w.j1 - 0.24| < (1e-6 : ℝ) ∧ |w.j2 - (-1.57)| < (1e-6 : ℝ) := by
  refine ⟨circleSample 40 0.3 ("horizontal") 1.0 0, ?_, ?_, ?_⟩
  · simp [PatternGenerator.circle_pattern]
  · have h : (circleSample 40 0.3 ("horizontal") 1.0 0).j1 = 0.24 := by
      simp [circleSample]
      norm_num [Real.cos_zero, Real.sin_zero]
    rw [h]
    norm_num
  · have h : (circleSample 40 0.3 ("horizontal") 1.0 0).j2 = -1.57 := by
      simp [circleSample]
    rw [h]
    norm_num

/-- Claim C6: `export_to_urscript` produces exactly one move per waypoint, in
trajectory order, and each move renders the waypoint's six joint values
rounded to four decimal places (every rendered value is an integer multiple
of 1/10000). -/
theorem export_one_move_per_waypoint (trajectory : List Waypoint)
    (acceleration velocity : ℝ) :
    (export_to_urscript trajectory acceleration velocity).length =
        trajectory.length ∧
    (∀ i : ℕ, (export_to_urscript trajectory acceleration velocity)[i]? =
      (trajectory[i]?).map (fun w =>
        Move.mk (w.toList.map round4) acceleration velocity none)) ∧
    (∀ m ∈ export_to_urscript trajectory acceleration velocity,
      m.joints.length = 6 ∧ ∀ x ∈ m.joints, ∃ k : ℤ, x = (k : ℝ) / 10000) := by
  refine ⟨List.length_map _ _, fun i => List.getElem?_map _ _ _, ?_⟩
  intro m hm
  rw [export_to_urscript, List.mem_map] at hm
  obtain ⟨w, _, rfl⟩ := hm
  refine ⟨by simp [Waypoint.toList], ?_⟩
  intro x hx
  simp only [List.mem_map] at hx
  obtain ⟨y, _, rfl⟩ := hx
  exact ⟨round (y * 10000), rfl⟩

/-- Witness for claim C6 at a concrete input. -/
theorem export_one_move_per_waypoint_witness :
    (export_to_urscript [Waypoint.mk 0 0 0 0 0 0] 1.2 0.6).length =
      [Waypoint.mk 0 0 0 0 0 0].length :=
  (export_one_move_per_waypoint [Waypoint.mk 0 0 0 0 0 0] 1.2 0.6).1

/-- Claim C7: for every pattern variant dispatched by the program generator
and every requested sample count `N ≥ 1`, the returned trajectory has exactly
`N` waypoints and its `i`-th element is the waypoint of sample index `i`. -/
theorem trajectories_have_requested_length (g : PatternGenerator)
    (hN : 1 ≤ g.num_points)
    (scale speed radius height amplitude wavelength complexity : ℝ)
    (plane : String) :
    ((g.infinity_3d scale speed).length = g.num_points ∧
      ∀ i, i < g.num_points → (g.infinity_3d scale speed)[i]? =
        some (infinity3dSample g.num_points scale speed i)) ∧
    ((g.circle_pattern radius plane speed).length = g.num_points ∧
      ∀ i, i < g.num_points → (g.circle_pattern radius plane speed)[i]? =
        some (circleSample g.num_points radius plane speed i)) ∧
    ((g.wave_pattern amplitude wavelength speed).length = g.num_points ∧
      ∀ i, i < g.num_points → (g.wave_pattern amplitude wavelength speed)[i]? =
        some (waveSample g.num_points amplitude wavelength speed i)) ∧
    ((g.spiral_pattern radius height speed).length = g.num_points ∧
      ∀ i, i < g.num_points → (g.spiral_pattern radius height speed)[i]? =
        some (spiralSample g.num_points radius height speed i)) ∧
    ((g.heart_pattern scale speed).length = g.num_points ∧
      ∀ i, i < g.num_points → (g.heart_pattern scale speed)[i]? =
        some (heartSample g.num_points scale speed i)) ∧
    ((g.lorenz_attractor scale complexity).length = g.num_points ∧
      ∀ i, i < g.num_points → (g.lorenz_attractor scale complexity)[i]? =
        some (lorenzWaypoint scale complexity i)) ∧
    ((g.rossler_attractor scale complexity).length = g.num_points ∧
      ∀ i, i < g.num_points → (g.rossler_attractor scale complexity)[i]? =
        some (rosslerWaypoint scale complexity i)) ∧
    ((g.henon_attractor scale complexity).length = g.num_points ∧
      ∀ i, i < g.num_points → (g.henon_attractor scale complexity)[i]? =
        some (henonWaypoint scale complexity i)) := by
  refine ⟨⟨?_, ?_⟩, ⟨?_, ?_⟩, ⟨?_, ?_⟩, ⟨?_, ?_⟩, ⟨?_, ?_⟩, ⟨?_, ?_⟩,
    ⟨?_, ?_⟩, ⟨?_, ?_⟩⟩ <;>
    simp only [PatternGenerator.infinity_3d, PatternGenerator.circle_pattern,
      PatternGenerator.wave_pattern, PatternGenerator.spiral_pattern,
      PatternGenerator.heart_pattern, PatternGenerator.lorenz_attractor,
      PatternGenerator.rossler_attractor, PatternGenerator.henon_attractor,
      List.length_map, List.length_range] <;>
    intro i hi <;>
    simp [List.getElem?_map, List.getElem?_range, hi]

/-- Witness for claim C7 at a concrete input. -/
theorem trajectories_have_requested_length_witness :
    ((PatternGenerator.mk 2 []).infinity_3d 1 1).length = 2 ∧
      ((PatternGenerator.mk 2 []).infinity_3d 1 1)[0]? =
        some (infinity3dSample 2 1 1 0) :=
  ⟨(trajectories_have_requested_length (PatternGenerator.mk 2 [])
      (by norm_num) 1 1 1 1 1 1 1 ("horizontal")).1.1,
   (trajectories_have_requested_length (PatternGenerator.mk 2 [])
      (by norm_num) 1 1 1 1 1 1 1 ("horizontal")).1.2 0 (by norm_num)⟩

/-- Claim C8: a pattern name whose lower-cased form is not one of the eight
dictionary keys makes `generate_pattern_script` return `None`: no program
text is emitted. -/
theorem unknown_pattern_yields_none (pattern_name : String)
    (h : strLower pattern_name ∉ [("infinity"), ("circle"), ("spiral"),
      ("wave"), ("heart"), ("lorenz"), ("rossler"), ("henon")]) :
    ∀ (num_points : ℕ) (acceleration velocity complexity : ℝ),
      generate_pattern_script pattern_name num_points acceleration velocity
        complexity = none := by
  intro N a v c
  simp only [List.mem_cons, List.not_mem_nil, or_false, not_or] at h
  have hl : (patternTable (PatternGenerator.mk N []) c).lookup
      (strLower pattern_name) = none := by
    apply lookup_eq_none_of_key_notin
    intro p hp
    fin_cases hp <;> simp only [] <;> tauto
  simp [generate_pattern_script, hl]

/-- Witness for claim C8 at a concrete input. -/
theorem unknown_pattern_yields_none_witness :
    generate_pattern_script ("square") 5 1.2 0.6 1.0 = none :=
  unknown_pattern_yields_none ("square") (by decide) 5 1.2 0.6 1.0

/-- Claim C9: the closed-form generators are pure — their output is a
function of the sample count and the shape parameters alone.  In this
embedding every sample is the pure per-index function `…Sample`, so two
evaluations at the same `t` coincide definitionally; the statement below
captures the absence of internal state: two generator instances with the same
`num_points` but arbitrary (different) internal `trajectory` fields produce
identical trajectories. -/
theorem closed_form_generators_pure (g₁ g₂ : PatternGenerator)
    (h : g₁.num_points = g₂.num_points)
    (scale speed radius height amplitude wavelength : ℝ) (plane : String) :
    g₁.infinity_3d scale speed = g₂.infinity_3d scale speed ∧
    g₁.circle_pattern radius plane speed = g₂.circle_pattern radius plane speed ∧
    g₁.wave_pattern amplitude wavelength speed =
      g₂.wave_pattern amplitude wavelength speed ∧
    g₁.spiral_pattern radius height speed = g₂.spiral_pattern radius height speed ∧
    g₁.heart_pattern scale speed = g₂.heart_pattern scale speed := by
  refine ⟨?_, ?_, ?_, ?_, ?_⟩ <;>
    simp [PatternGenerator.infinity_3d, PatternGenerator.circle_pattern,
      PatternGenerator.wave_pattern, PatternGenerator.spiral_pattern,
      PatternGenerator.heart_pattern, h]

/-- Witness for claim C9: two instances whose internal `trajectory` fields
differ produce the same circle trajectory. -/
theorem closed_form_generators_pure_witness :
    (PatternGenerator.mk 3 []).circle_pattern 0.3 ("horizontal") 1 =
      (PatternGenerator.mk 3 [Waypoint.mk 1 1 1 1 1 1]).circle_pattern 0.3
        ("horizontal") 1 :=
  (closed_form_generators_pure (PatternGenerator.mk 3 [])
    (PatternGenerator.mk 3 [Waypoint.mk 1 1 1 1 1 1]) rfl
    0.3 1 0.3 0.4 0.3 2 ("horizontal")).2.1

/-- Claim C10: the chaotic generators are fully deterministic — the initial
state, step size and system constants are hard-coded in `lorenzPre`,
`rosslerPre` and `henonPre`, so two independent calls on fresh instances with
the same `num_points`, `scale` and `complexity` return element-wise identical
trajectories. -/
theorem chaotic_generators_deterministic (g₁ g₂ : PatternGenerator)
    (h : g₁.num_points = g₂.num_points) (scale complexity : ℝ) :
    g₁.lorenz_attractor scale complexity = g₂.lorenz_attractor scale complexity ∧
    g₁.rossler_attractor scale complexity =
      g₂.rossler_attractor scale complexity ∧
    g₁.henon_attractor scale complexity = g₂.henon_attractor scale complexity := by
  refine ⟨?_, ?_, ?_⟩ <;>
    simp [PatternGenerator.lorenz_attractor, PatternGenerator.rossler_attractor,
      PatternGenerator.henon_attractor, h]

/-- Witness for claim C10: two instances whose internal `trajectory` fields
differ produce the same Lorenz trajectory. -/
theorem chaotic_generators_deterministic_witness :
    (PatternGenerator.mk 4 []).lorenz_attractor 0.3 1 =
      (PatternGenerator.mk 4 [Waypoint.mk 0 0 0 0 0 0]).lorenz_attractor 0.3 1 :=
  (chaotic_generators_deterministic (PatternGenerator.mk 4 [])
    (PatternGenerator.mk 4 [Waypoint.mk 0 0 0 0 0 0]) rfl 0.3 1).1

end
